import Mathlib

/-!
Verification of the Flowent action-server example (`api_gateway/examples/python/app.py`)
against its specification. The Python program is shallowly embedded: JSON values are an
inductive type, Python exceptions are `Except String` (carrying `str(e)`), machine time
is an explicit `now : Int` parameter, and every function mirrors the corresponding
Python function line by line. HMAC-SHA256 (`hmac.new(key, payload, hashlib.sha256)`)
is implemented in full over `Nat` so that concrete requests evaluate end to end.
-/

namespace Flowent

/-- A parsed JSON value, as produced by `request.get_json()` / `json.loads`.
Numbers are restricted to integers, which is the only numeric shape the
program's requests use (`timestamp` is an integer). Object fields keep the
parse/insertion order, as Python dicts do. -/
inductive Json where
  | null : Json
  | bool (flag : Bool) : Json
  | num (value : Int) : Json
  | str (text : String) : Json
  | arr (items : List Json) : Json
  | obj (entries : List (String × Json)) : Json

/-- Key lookup in an ordered field list. `json.loads` builds a dict where a
duplicated key keeps the last value, so the last binding wins. -/
def lookupFields : List (String × Json) → String → Option Json
  | [], _ => none
  | (k, v) :: rest, key =>
    match lookupFields rest key with
    | some r => some r
    | none => if k == key then some v else none

/-- Dict lookup on a JSON value; `none` on non-objects (callers that would
raise in Python go through `pyGetAttr` / `pyIndex` below instead). -/
def Json.lookup : Json → String → Option Json
  | Json.obj fields, key => lookupFields fields key
  | _, _ => none

/-- Python truthiness (`if not data`, `if not signature`, `all([...])`) of a
parsed JSON value: `None`, `False`, `0`, `""`, `[]`, `{}` are falsy. -/
def Json.isTruthy : Json → Bool
  | Json.null => false
  | Json.bool b => b
  | Json.num n => n != 0
  | Json.str s => s != ""
  | Json.arr elems => !elems.isEmpty
  | Json.obj fields => !fields.isEmpty

/-- The Python type name of the value, as it appears in exception messages. -/
def Json.pyTypeName : Json → String
  | Json.null => "NoneType"
  | Json.bool _ => "bool"
  | Json.num _ => "int"
  | Json.str _ => "str"
  | Json.arr _ => "list"
  | Json.obj _ => "dict"

/-- A string wrapped in single quotes, as Python exception messages and
`repr` produce. -/
def pyQuote (s : String) : String :=
  String.singleton (Char.ofNat 39) ++ s ++ String.singleton (Char.ofNat 39)

/-- `data.get(key, default)` on a Python value: succeeds with the optional
field on a dict, raises `AttributeError` otherwise (`str(e)` is
`"'<type>' object has no attribute 'get'"`). -/
def pyGetAttr (j : Json) (key : String) : Except String (Option Json) :=
  match j with
  | Json.obj fields => Except.ok (lookupFields fields key)
  | other => Except.error (pyQuote other.pyTypeName ++ " object has no attribute " ++ pyQuote "get")

/-- `data[key]` on a Python value: `KeyError` on a dict without the key
(`str(KeyError(k))` is `"'k'"`), `TypeError` on non-dicts. -/
def pyIndex (j : Json) (key : String) : Except String Json :=
  match j with
  | Json.obj fields =>
    match lookupFields fields key with
    | some v => Except.ok v
    | none => Except.error (pyQuote key)
  | other => Except.error (other.pyTypeName ++ " indices must be integers or slices, not str")

/-- `int - value` as in `current_time - timestamp`: Python `bool` is an
`int` subtype, every other non-int operand raises `TypeError`. -/
def pyToArithInt (j : Json) : Except String Int :=
  match j with
  | Json.num n => Except.ok n
  | Json.bool b => Except.ok (if b then 1 else 0)
  | other => Except.error ("unsupported operand type(s) for -: " ++ pyQuote "int" ++ " and " ++ pyQuote other.pyTypeName)

/-- Does a JSON object body contain the given key? -/
def Json.hasKey (j : Json) (key : String) : Bool :=
  (j.lookup key).isSome

/-! ## `json.dumps(..., separators=(',', ':'))`

Python's serializer with compact separators and the default
`ensure_ascii=True`: ASCII printable characters are emitted as is, the short
escapes are used for the JSON control characters, every other code point is
emitted as a lowercase `\uXXXX` escape (a surrogate pair above U+FFFF). -/

/-- Lowercase hex digit for a nibble. -/
def hexDigitChar (n : Nat) : Char :=
  if n < 10 then Char.ofNat (48 + n) else Char.ofNat (87 + n % 16)

/-- Four-digit lowercase hex, as in Python's `\uXXXX` escapes. -/
def hex4 (n : Nat) : String :=
  String.mk [hexDigitChar (n / 4096 % 16), hexDigitChar (n / 256 % 16),
             hexDigitChar (n / 16 % 16), hexDigitChar (n % 16)]

/-- Escape one character the way `json.dumps` (with `ensure_ascii=True`) does. -/
def jsonEscapeChar (c : Char) : String :=
  let n := c.toNat
  if c = Char.ofNat 34 then "\\\""
  else if c = Char.ofNat 92 then "\\\\"
  else if n = 8 then "\\b"
  else if n = 9 then "\\t"
  else if n = 10 then "\\n"
  else if n = 12 then "\\f"
  else if n = 13 then "\\r"
  else if n < 32 then "\\u" ++ hex4 n
  else if n < 127 then String.singleton c
  else if n < 65536 then "\\u" ++ hex4 n
  else
    let m := n - 65536
    "\\u" ++ hex4 (55296 + m / 1024) ++ "\\u" ++ hex4 (56320 + m % 1024)

/-- A JSON string literal with its surrounding double quotes. -/
def jsonDumpString (s : String) : String :=
  "\"" ++ String.join (s.data.map jsonEscapeChar) ++ "\""

mutual

/-- `json.dumps(value, separators=(',', ':'))`: compact serialization with
`,` between elements and `:` between a key and its value, no whitespace. -/
def Json.dumps : Json → String
  | Json.null => "null"
  | Json.bool true => "true"
  | Json.bool false => "false"
  | Json.num n => toString n
  | Json.str s => jsonDumpString s
  | Json.arr elems => "[" ++ String.intercalate "," (dumpsList elems) ++ "]"
  | Json.obj fields => "\x7b" ++ String.intercalate "," (dumpsFields fields) ++ "\x7d"

/-- Serialize each array element. -/
def dumpsList : List Json → List String
  | [] => []
  | x :: xs => Json.dumps x :: dumpsList xs

/-- Serialize each object field as `"key":value`. -/
def dumpsFields : List (String × Json) → List String
  | [] => []
  | (k, v) :: fs => (jsonDumpString k ++ ":" ++ Json.dumps v) :: dumpsFields fs

end

/-! ## SHA-256 and HMAC (`hashlib.sha256`, `hmac.new(key, msg, hashlib.sha256)`)

The Python code delegates hashing to the standard library; the algorithm is
reproduced here in full (FIPS 180-4 / RFC 2104) over `Nat`, with 32-bit
words kept below `2^32` by explicit masking, so that concrete signatures
evaluate inside Lean. -/

/-- UTF-8 encoding of one code point (`str.encode('utf-8')`). -/
def utf8EncodeChar (n : Nat) : List Nat :=
  if n < 128 then [n]
  else if n < 2048 then [192 + n / 64, 128 + n % 64]
  else if n < 65536 then [224 + n / 4096, 128 + n / 64 % 64, 128 + n % 64]
  else [240 + n / 262144, 128 + n / 4096 % 64, 128 + n / 64 % 64, 128 + n % 64]

/-- The UTF-8 bytes of a string (`payload.encode('utf-8')`). -/
def strBytes (s : String) : List Nat :=
  s.data.foldr (fun c acc => utf8EncodeChar c.toNat ++ acc) []

/-- Right rotation of a 32-bit word. -/
def rotr32 (n x : Nat) : Nat :=
  ((x >>> n) ||| (x <<< (32 - n))) % 4294967296

/-- The 64 SHA-256 round constants (FIPS 180-4 section 4.2.2), in decimal. -/
def sha256K : List Nat :=
  [1116352408, 1899447441, 3049323471, 3921009573, 961987163, 1508970993,
   2453635748, 2870763221, 3624381080, 310598401, 607225278, 1426881987,
   1925078388, 2162078206, 2614888103, 3248222580, 3835390401, 4022224774,
   264347078, 604807628, 770255983, 1249150122, 1555081692, 1996064986,
   2554220882, 2821834349, 2952996808, 3210313671, 3336571891, 3584528711,
   113926993, 338241895, 666307205, 773529912, 1294757372, 1396182291,
   1695183700, 1986661051, 2177026350, 2456956037, 2730485921, 2820302411,
   3259730800, 3345764771, 3516065817, 3600352804, 4094571909, 275423344,
   430227734, 506948616, 659060556, 883997877, 958139571, 1322822218,
   1537002063, 1747873779, 1955562222, 2024104815, 2227730452, 2361852424,
   2428436474, 2756734187, 3204031479, 3329325298]

/-- The SHA-256 initial hash value (FIPS 180-4 section 5.3.3), in decimal. -/
def sha256H0 : List Nat :=
  [1779033703, 3144134277, 1013904242, 2773480762, 1359893119, 2600822924, 528734635, 1541459225]

/-- Big-endian byte decomposition, most significant byte first. -/
def beBytes : Nat → Nat → List Nat
  | 0, _ => []
  | n + 1, x => beBytes n (x / 256) ++ [x % 256]

/-- Group bytes into 32-bit big-endian words. -/
def bytesToWords : List Nat → List Nat
  | b0 :: b1 :: b2 :: b3 :: rest => (((b0 * 256 + b1) * 256 + b2) * 256 + b3) :: bytesToWords rest
  | _ => []

/-- One step of the message-schedule extension. -/
def scheduleStep (w : Array Nat) (i : Nat) : Array Nat :=
  let x15 := w.getD (i - 15) 0
  let x2 := w.getD (i - 2) 0
  let s0 := rotr32 7 x15 ^^^ rotr32 18 x15 ^^^ (x15 >>> 3)
  let s1 := rotr32 17 x2 ^^^ rotr32 19 x2 ^^^ (x2 >>> 10)
  w.push ((w.getD (i - 16) 0 + s0 + w.getD (i - 7) 0 + s1) % 4294967296)

/-- Extend 16 message words to the 64-entry schedule. -/
def sha256Schedule (ws : List Nat) : List Nat :=
  ((List.range 48).foldl (fun a j => scheduleStep a (j + 16)) ws.toArray).toList

/-- One SHA-256 round on the working state `[a,b,c,d,e,f,g,h]`. -/
def sha256Round (st : List Nat) (kw : Nat × Nat) : List Nat :=
  match st with
  | [va, vb, vc, vd, ve, vf, vg, vh] =>
    let s1 := rotr32 6 ve ^^^ rotr32 11 ve ^^^ rotr32 25 ve
    let chv := (ve &&& vf) ^^^ ((ve ^^^ 4294967295) &&& vg)
    let t1 := (vh + s1 + chv + kw.1 + kw.2) % 4294967296
    let s0 := rotr32 2 va ^^^ rotr32 13 va ^^^ rotr32 22 va
    let mjv := (va &&& vb) ^^^ (va &&& vc) ^^^ (vb &&& vc)
    let t2 := (s0 + mjv) % 4294967296
    [(t1 + t2) % 4294967296, va, vb, vc, (vd + t1) % 4294967296, ve, vf, vg]
  | other => other

/-- Compress one 64-byte block into the running hash. -/
def sha256Compress (h : List Nat) (block : List Nat) : List Nat :=
  let ws := sha256Schedule (bytesToWords block)
  let fin := (sha256K.zip ws).foldl sha256Round h
  (h.zip fin).map (fun p => (p.1 + p.2) % 4294967296)

/-- Merkle-Damgard padding: `0x80`, zeros to 56 mod 64, 8-byte big-endian bit length. -/
def sha256Pad (msg : List Nat) : List Nat :=
  let L := msg.length
  msg ++ [128] ++ List.replicate ((119 - L % 64) % 64) 0 ++ beBytes 8 (8 * L)

/-- Fold the compression function over consecutive 64-byte blocks; the first
argument counts the remaining blocks (the padded message length is always a
multiple of 64, so the count is exact). -/
def sha256Blocks : Nat → List Nat → List Nat → List Nat
  | 0, h, _ => h
  | n + 1, h, l => sha256Blocks n (sha256Compress h (l.take 64)) (l.drop 64)

/-- SHA-256 digest of a byte list, as 32 bytes. -/
def sha256Bytes (msg : List Nat) : List Nat :=
  let padded := sha256Pad msg
  ((sha256Blocks (padded.length / 64) sha256H0 padded).map (beBytes 4)).flatten

/-- Two lowercase hex digits for one byte. -/
def hex2 (b : Nat) : String :=
  String.mk [hexDigitChar (b / 16 % 16), hexDigitChar (b % 16)]

/-- Lowercase hex encoding of a byte list (`.hexdigest()`). -/
def hexOfBytes (bs : List Nat) : String :=
  String.join (bs.map hex2)

/-- `hmac.new(key.encode('utf-8'), msg.encode('utf-8'), hashlib.sha256).hexdigest()`
per RFC 2104: keys longer than the 64-byte block are hashed first, the key
is zero-padded to the block size, and the digest is the outer hash over the
inner hash, hex-encoded lowercase. -/
def hmacSha256Hex (key msg : String) : String :=
  let k0 := strBytes key
  let k1 := if 64 < k0.length then sha256Bytes k0 else k0
  let kp := k1 ++ List.replicate (64 - k1.length) 0
  let inner := sha256Bytes (kp.map (fun b => b ^^^ 54) ++ strBytes msg)
  hexOfBytes (sha256Bytes (kp.map (fun b => b ^^^ 92) ++ inner))

/-- `hmac.compare_digest` on two hex strings: a timing-safe comparison whose
boolean value is plain equality. -/
def compare_digest (a b : String) : Bool :=
  a == b

/-! ## Python `str()` for f-string interpolation

The handlers interpolate parameter values into reply strings
(`f"Email sent successfully to {recipient}"`); `str()` of a parsed JSON
value renders containers with `repr`, which quotes strings in single
quotes. -/

mutual

/-- Python `repr` of a parsed JSON value (no escaping inside strings,
which the program's parameter values never need). -/
def Json.pyRepr : Json → String
  | Json.null => "None"
  | Json.bool true => "True"
  | Json.bool false => "False"
  | Json.num n => toString n
  | Json.str s => pyQuote s
  | Json.arr elems => "[" ++ String.intercalate ", " (pyReprList elems) ++ "]"
  | Json.obj fields => "\x7b" ++ String.intercalate ", " (pyReprFields fields) ++ "\x7d"

/-- `repr` of each list element. -/
def pyReprList : List Json → List String
  | [] => []
  | x :: xs => Json.pyRepr x :: pyReprList xs

/-- `repr` of each dict item as `'key': value`. -/
def pyReprFields : List (String × Json) → List String
  | [] => []
  | (k, v) :: fs => (pyQuote k ++ ": " ++ Json.pyRepr v) :: pyReprFields fs

end

/-- Python `str()` of a parsed JSON value, as an f-string renders it. -/
def Json.pyStr : Json → String
  | Json.null => "None"
  | Json.bool true => "True"
  | Json.bool false => "False"
  | Json.num n => toString n
  | Json.str s => s
  | Json.arr elems => Json.pyRepr (Json.arr elems)
  | Json.obj fields => Json.pyRepr (Json.obj fields)

/-! ## `FlowentActionServer` (app.py lines 33-182)

The class holds only the HMAC key (`self.hmac_key`); each method below takes
the key as its first argument. The module instantiates it once with
`HMAC_KEY` (line 185). -/

/-- Module-level `HMAC_KEY` constant (app.py line 31). -/
def HMAC_KEY : String := "your-hmac-key-here"

/-- Lines 44-55 of `validate_signature`: the payload rebuilt without the
signature field — dict literal with keys `action_name`, `parameters`,
`timestamp` in that order, `test` appended only when present in the request
— serialized with `json.dumps(..., separators=(',', ':'))`. Field access
`request_data[...]` raises `KeyError` when the field is missing. -/
def canonical_payload (request_data : Json) : Except String String := do
  let an ← pyIndex request_data "action_name"
  let ps ← pyIndex request_data "parameters"
  let ts ← pyIndex request_data "timestamp"
  let base := [("action_name", an), ("parameters", ps), ("timestamp", ts)]
  let fields := match request_data.lookup "test" with
    | some tv => base ++ [("test", tv)]
    | none => base
  pure (Json.dumps (Json.obj fields))

/-- `FlowentActionServer.validate_signature` (lines 37-68): HMAC-SHA256 of
the canonical payload under the server key, hex-encoded, compared to the
received signature with `hmac.compare_digest`. A non-string received
signature makes `compare_digest` raise `TypeError`. -/
def validate_signature (hmac_key : String) (request_data : Json) (received_signature : Json) : Except String Bool := do
  let payload ← canonical_payload request_data
  let expected := hmacSha256Hex hmac_key payload
  match received_signature with
  | Json.str s => pure (compare_digest s expected)
  | other =>
    Except.error ("unsupported operand types(s) or combination of arguments: "
      ++ pyQuote other.pyTypeName ++ " and " ++ pyQuote "str")

/-- `FlowentActionServer.send_email` (lines 124-140). The `time.sleep` and
logging calls are side-effect free in the model. -/
def send_email (params : Json) : Except String (String × Int × String) := do
  let recipient := (← pyGetAttr params "recipient").getD Json.null
  let subject := (← pyGetAttr params "subject").getD Json.null
  let body := (← pyGetAttr params "body").getD Json.null
  if !(recipient.isTruthy && subject.isTruthy && body.isTruthy) then
    pure ("", 0, "Missing required parameters: recipient, subject, body")
  else
    pure ("Email sent successfully to " ++ recipient.pyStr, 1, "")

/-- `FlowentActionServer.create_user` (lines 142-157); `user_id` embeds
`int(time.time())`, the explicit `now`. -/
def create_user (params : Json) (now : Int) : Except String (String × Int × String) := do
  let username := (← pyGetAttr params "username").getD Json.null
  let email := (← pyGetAttr params "email").getD Json.null
  let _full_name := (← pyGetAttr params "full_name").getD Json.null
  if !(username.isTruthy && email.isTruthy) then
    pure ("", 0, "Missing required parameters: username, email")
  else
    pure ("User created successfully with ID: user_" ++ toString now, 1, "")

/-- `FlowentActionServer.get_weather` (lines 159-182); the weather data is a
local literal, so the inner `try` body cannot fail. -/
def get_weather (params : Json) : Except String (String × Int × String) := do
  let location := (← pyGetAttr params "location").getD Json.null
  if !location.isTruthy then
    pure ("", 0, "Missing required parameter: location")
  else
    pure ("Weather in " ++ location.pyStr ++ ": 22°C, Sunny", 1, "")

/-- The `try` body of `execute_action` (lines 112-119): the if/elif chain
over the three registered handlers, with the unknown-action fallback. -/
def dispatchTry (action_name : String) (parameters : Json) (now : Int) : Except String (String × Int × String) :=
  if action_name == "send_email" then send_email parameters
  else if action_name == "create_user" then create_user parameters now
  else if action_name == "get_weather" then get_weather parameters
  else pure ("", 0, "Unknown action: " ++ action_name)

/-- The `except Exception` clause of `execute_action` (lines 120-122): any
exception escaping a handler becomes the tuple
`("", 0, f"Action execution failed: {str(e)}")`. -/
def dispatchBoundary (r : Except String (String × Int × String)) : String × Int × String :=
  match r with
  | Except.ok t => t
  | Except.error e => ("", 0, "Action execution failed: " ++ e)

/-- `FlowentActionServer.execute_action` (lines 104-122): dispatch guarded
by the catch-all boundary. Note the annotation `Tuple[str, int, str]`: every
branch returns a 3-tuple, although the docstring says `(result, error)`. -/
def execute_action (action_name : String) (parameters : Json) (now : Int) : String × Int × String :=
  dispatchBoundary (dispatchTry action_name parameters now)

/-! ## The `/actions/<action_name>` route (app.py lines 187-243)

`handle_action` is modelled as a pure function of the path segment, the
parsed request body (`none` when `request.get_json()` yields nothing), and
the current time `int(time.time())`. Its value is the HTTP response:
status code plus JSON body. -/

/-- An HTTP response: status code and JSON body (`jsonify(...)` output). -/
structure Response where
  status : Nat
  body : Json

/-- The `except Exception` clause of `handle_action` (lines 238-243):
a 500 response whose body carries `str(e)`. -/
def internalServerError (e : String) : Response :=
  ⟨500, Json.obj [("result", Json.str ""), ("error", Json.str ("Internal server error: " ++ e))]⟩

/-- Line 219's replay condition: `abs(current_time - timestamp) > 300`. -/
def replay_rejects (now ts : Int) : Bool :=
  300 < (now - ts).natAbs

/-- `str(e)` of the `ValueError` raised on line 224, where the 3-tuple
returned by `execute_action` is unpacked into the two names
`result, error`. -/
def unpackValueErrorMsg : String := "too many values to unpack (expected 2)"

/-- Lines 190-223 of `handle_action`: everything before the dispatch call.
Early returns and exceptions caught by the surrounding `try` produce a
`Sum.inl` response; `Sum.inr (name, params)` carries the exact arguments
passed to `execute_action` on line 224. -/
def preDispatch (hmac_key : String) (action_name : String) (data? : Option Json) (now : Int) : Sum Response (String × Json) :=
  match data? with
  | none => Sum.inl ⟨400, Json.obj [("error", Json.str "Invalid JSON payload")]⟩
  | some data =>
    if data.isTruthy = false then
      Sum.inl ⟨400, Json.obj [("error", Json.str "Invalid JSON payload")]⟩
    else
      match pyGetAttr data "test" with
      | Except.error e => Sum.inl (internalServerError e)
      | Except.ok testField =>
        if (testField.getD (Json.bool false)).isTruthy then
          Sum.inl ⟨200, Json.obj [("result", Json.str ("Test successful for action: " ++ action_name)),
                                  ("error", Json.str "")]⟩
        else
          match pyGetAttr data "signature" with
          | Except.error e => Sum.inl (internalServerError e)
          | Except.ok sigField =>
            if (sigField.getD (Json.str "")).isTruthy = false then
              Sum.inl ⟨401, Json.obj [("error", Json.str "Missing signature")]⟩
            else
              match validate_signature hmac_key data (sigField.getD (Json.str "")) with
              | Except.error e => Sum.inl (internalServerError e)
              | Except.ok false => Sum.inl ⟨401, Json.obj [("error", Json.str "Invalid signature")]⟩
              | Except.ok true =>
                match pyGetAttr data "timestamp" with
                | Except.error e => Sum.inl (internalServerError e)
                | Except.ok tsField =>
                  match pyToArithInt (tsField.getD (Json.num 0)) with
                  | Except.error e => Sum.inl (internalServerError e)
                  | Except.ok ts =>
                    if replay_rejects now ts then
                      Sum.inl ⟨401, Json.obj [("error", Json.str "Request timestamp too old")]⟩
                    else
                      match pyGetAttr data "parameters" with
                      | Except.error e => Sum.inl (internalServerError e)
                      | Except.ok paramsField =>
                        Sum.inr (action_name, paramsField.getD (Json.obj []))

/-- The `/actions/<action_name>` view (lines 187-243). When the pipeline
reaches line 224, `result, error = action_server.execute_action(...)`
unpacks the 3-tuple `execute_action` returns into two names, which raises
`ValueError`; the surrounding `try` turns it into the 500 response of
lines 238-243, so the 200/500-by-handler-outcome responses of lines 226-236
are never produced. -/
def handle_action (hmac_key : String) (action_name : String) (data? : Option Json) (now : Int) : Response :=
  match preDispatch hmac_key action_name data? now with
  | Sum.inl r => r
  | Sum.inr np =>
    let _ := execute_action np.1 np.2 now
    internalServerError unpackValueErrorMsg

/-- Lines 226-236 as written: the response `handle_action` would build from
a `(result, error)` pair — 500 when `error` is non-empty, 200 otherwise.
Unreachable in the program because of the line 224 unpacking, but it is the
behaviour the spec describes for the `Dispatched` state. -/
def dispatchResponse (result error : String) : Response :=
  if error != "" then ⟨500, Json.obj [("result", Json.str result), ("error", Json.str error)]⟩
  else ⟨200, Json.obj [("result", Json.str result), ("error", Json.str error)]⟩

/-! ## The spec section 8 end-to-end scenario

Key `"secret"`, action `send_email`, the given parameters, timestamp
`1700000000`, and the matching HMAC-SHA256 hex signature (the value below
is HMAC-SHA256 of the canonical payload under key `"secret"`, which the
theorems recompute inside Lean). -/

/-- The example `parameters` object, in the given field order. -/
def exampleParameters : Json :=
  Json.obj [("recipient", Json.str "a@example.com"), ("subject", Json.str "Hi"),
            ("body", Json.str "Hello")]

/-- The canonical payload string the spec displays for the example. -/
def examplePayloadString : String :=
  "\x7b\"action_name\":\"send_email\",\"parameters\":\x7b\"recipient\":\"a@example.com\",\"subject\":\"Hi\",\"body\":\"Hello\"\x7d,\"timestamp\":1700000000\x7d"

/-- HMAC-SHA256 of the canonical payload under key `"secret"`, hex-encoded. -/
def exampleSignature : String :=
  "b518e4a9d121a9ca09f43965c59ec8b41364acbb6b3b41a7d16cdf461dd80493"

/-- The complete example request body, signature field included. -/
def exampleRequest : Json :=
  Json.obj [("action_name", Json.str "send_email"), ("parameters", exampleParameters),
            ("timestamp", Json.num 1700000000), ("signature", Json.str exampleSignature)]

/-- The example request with its signature replaced by a wrong value. -/
def badSigRequest : Json :=
  Json.obj [("action_name", Json.str "send_email"), ("parameters", exampleParameters),
            ("timestamp", Json.num 1700000000), ("signature", Json.str "00")]

/-- A signed-looking request that is missing the required `action_name` field. -/
def missingFieldRequest : Json :=
  Json.obj [("parameters", Json.obj []), ("timestamp", Json.num 1700000000),
            ("signature", Json.str "x")]

/-! ## Helper lemmas

Shared facts about the pipeline: how `handle_action` behaves past the
test-mode check for a non-test request with a present, truthy, string
signature, for each outcome of the signature and replay checks; and the
concretely evaluated signature checks of the section 8 example. -/

set_option maxRecDepth 100000

/-- A body that rejects the signature produces the 401 invalid-signature
response. -/
theorem handle_action_invalid_signature (hmac_key action_name : String)
    (fields : List (String × Json)) (now : Int) (s : String)
    (htest : ((lookupFields fields "test").getD (Json.bool false)).isTruthy = false)
    (hsig : lookupFields fields "signature" = some (Json.str s))
    (hstruthy : (s != "") = true)
    (hvalid : validate_signature hmac_key (Json.obj fields) (Json.str s) = Except.ok false) :
    handle_action hmac_key action_name (some (Json.obj fields)) now =
      ⟨401, Json.obj [("error", Json.str "Invalid signature")]⟩ := by
  have hne : fields ≠ [] := by
    intro h
    subst h
    simp [lookupFields] at hsig
  have hobj : (Json.obj fields).isTruthy = true := by
    cases fields with
    | nil => exact absurd rfl hne
    | cons a l => rfl
  have hstr : (Json.str s).isTruthy = true := hstruthy
  unfold handle_action preDispatch
  simp [pyGetAttr, hobj, htest, hsig, hstr, hvalid]

/-- A validly signed body whose timestamp fails the replay window produces
the 401 timestamp-too-old response. -/
theorem handle_action_replay_rejected (hmac_key action_name : String)
    (fields : List (String × Json)) (now : Int) (s : String) (ts : Int)
    (htest : ((lookupFields fields "test").getD (Json.bool false)).isTruthy = false)
    (hsig : lookupFields fields "signature" = some (Json.str s))
    (hstruthy : (s != "") = true)
    (hvalid : validate_signature hmac_key (Json.obj fields) (Json.str s) = Except.ok true)
    (hts : lookupFields fields "timestamp" = some (Json.num ts))
    (hreplay : replay_rejects now ts = true) :
    handle_action hmac_key action_name (some (Json.obj fields)) now =
      ⟨401, Json.obj [("error", Json.str "Request timestamp too old")]⟩ := by
  have hne : fields ≠ [] := by
    intro h
    subst h
    simp [lookupFields] at hsig
  have hobj : (Json.obj fields).isTruthy = true := by
    cases fields with
    | nil => exact absurd rfl hne
    | cons a l => rfl
  have hstr : (Json.str s).isTruthy = true := hstruthy
  unfold handle_action preDispatch
  simp [pyGetAttr, hobj, htest, hsig, hstr, hvalid, hts, pyToArithInt, hreplay]

/-- A validly signed body inside the replay window reaches the dispatch
call with the path's action name, where the line 224 unpacking fails. -/
theorem handle_action_reaches_dispatch (hmac_key action_name : String)
    (fields : List (String × Json)) (now : Int) (s : String) (ts : Int)
    (htest : ((lookupFields fields "test").getD (Json.bool false)).isTruthy = false)
    (hsig : lookupFields fields "signature" = some (Json.str s))
    (hstruthy : (s != "") = true)
    (hvalid : validate_signature hmac_key (Json.obj fields) (Json.str s) = Except.ok true)
    (hts : lookupFields fields "timestamp" = some (Json.num ts))
    (hreplay : replay_rejects now ts = false) :
    preDispatch hmac_key action_name (some (Json.obj fields)) now =
      Sum.inr (action_name, (lookupFields fields "parameters").getD (Json.obj [])) ∧
    handle_action hmac_key action_name (some (Json.obj fields)) now =
      internalServerError unpackValueErrorMsg := by
  have hne : fields ≠ [] := by
    intro h
    subst h
    simp [lookupFields] at hsig
  have hobj : (Json.obj fields).isTruthy = true := by
    cases fields with
    | nil => exact absurd rfl hne
    | cons a l => rfl
  have hstr : (Json.str s).isTruthy = true := hstruthy
  constructor
  · unfold preDispatch
    simp [pyGetAttr, hobj, htest, hsig, hstr, hvalid, hts, pyToArithInt, hreplay]
  · unfold handle_action preDispatch
    simp [pyGetAttr, hobj, htest, hsig, hstr, hvalid, hts, pyToArithInt, hreplay]

/-- An exception inside `validate_signature` (such as the `KeyError` on a
missing required field) is caught by the route's catch-all and surfaces as
the 500 internal-server-error response. -/
theorem handle_action_validate_error (hmac_key action_name : String)
    (fields : List (String × Json)) (now : Int) (s : String) (e : String)
    (htest : ((lookupFields fields "test").getD (Json.bool false)).isTruthy = false)
    (hsig : lookupFields fields "signature" = some (Json.str s))
    (hstruthy : (s != "") = true)
    (hvalid : validate_signature hmac_key (Json.obj fields) (Json.str s) = Except.error e) :
    handle_action hmac_key action_name (some (Json.obj fields)) now =
      internalServerError e := by
  have hne : fields ≠ [] := by
    intro h
    subst h
    simp [lookupFields] at hsig
  have hobj : (Json.obj fields).isTruthy = true := by
    cases fields with
    | nil => exact absurd rfl hne
    | cons a l => rfl
  have hstr : (Json.str s).isTruthy = true := hstruthy
  unfold handle_action preDispatch
  simp [pyGetAttr, hobj, htest, hsig, hstr, hvalid]

/-- The example signature is exactly HMAC-SHA256 of the canonical payload
under key `"secret"`, so the example request validates. -/
theorem exampleValidates :
    exampleSignature = hmacSha256Hex "secret" examplePayloadString ∧
    validate_signature "secret" exampleRequest (Json.str exampleSignature) = Except.ok true := by
  constructor
  · rfl
  · rfl

/-- The tampered signature `"00"` is rejected by the signature check. -/
theorem badSigInvalid :
    validate_signature "secret" badSigRequest (Json.str "00") = Except.ok false := by
  rfl

/-- Every early-return response of the pipeline (before the dispatch call)
carries an `error` field, and carries a `result` field whenever its status
is neither 400 nor 401. -/
theorem preDispatch_inl_shape (hmac_key action_name : String) (data? : Option Json)
    (now : Int) (r : Response)
    (h : preDispatch hmac_key action_name data? now = Sum.inl r) :
    r.body.hasKey "error" = true ∧
    (r.status = 400 ∨ r.status = 401 ∨ r.body.hasKey "result" = true) := by
  unfold preDispatch at h
  cases data? with
  | none =>
    cases h
    simp [Json.hasKey, Json.lookup, lookupFields]
  | some data =>
    repeat' split at h
    all_goals cases h <;> simp [internalServerError, Json.hasKey, Json.lookup, lookupFields]

/-! ## The claims -/

/-- C1 (code bug): the section 8 end-to-end scenario — key `"secret"`,
action `send_email`, the given parameters, timestamp `1700000000`, the
matching HMAC-SHA256 hex signature, current time equal to the timestamp —
does NOT return HTTP 200 with empty error. The dispatched handler itself
succeeds with empty error, and the response lines 226-236 would map that
outcome to 200, but line 224 (`result, error = ...`) unpacks the 3-tuple
returned by `execute_action` into two names, so the route answers with the
catch-all 500 response instead. -/
theorem C1_example_scenario_returns_500 :
    execute_action "send_email" exampleParameters 1700000000 =
      ("Email sent successfully to a@example.com", 1, "") ∧
    dispatchResponse "Email sent successfully to a@example.com" "" =
      ⟨200, Json.obj [("result", Json.str "Email sent successfully to a@example.com"),
                      ("error", Json.str "")]⟩ ∧
    handle_action "secret" "send_email" (some exampleRequest) 1700000000 =
      ⟨500, Json.obj [("result", Json.str ""),
        ("error", Json.str "Internal server error: too many values to unpack (expected 2)")]⟩ := by
  refine ⟨rfl, rfl, ?_⟩
  exact (handle_action_reaches_dispatch "secret" "send_email"
    [("action_name", Json.str "send_email"), ("parameters", exampleParameters),
     ("timestamp", Json.num 1700000000), ("signature", Json.str exampleSignature)]
    1700000000 exampleSignature 1700000000 rfl rfl rfl exampleValidates.2 rfl rfl).2

/-- C2: the canonical payload is built from exactly the keys `action_name`,
`parameters`, `timestamp`, and `test` (the latter only when present), in
that fixed order, excluding the signature field, serialized compactly; the
MAC is computed over exactly this payload; and for the section 8 example
request (which carries a signature field) the payload is exactly the
displayed byte string. -/
theorem C2_canonical_payload_shape (fields : List (String × Json)) (an ps ts : Json)
    (ha : lookupFields fields "action_name" = some an)
    (hp : lookupFields fields "parameters" = some ps)
    (ht : lookupFields fields "timestamp" = some ts) :
    (lookupFields fields "test" = none →
      canonical_payload (Json.obj fields) =
        Except.ok (Json.dumps (Json.obj
          [("action_name", an), ("parameters", ps), ("timestamp", ts)]))) ∧
    (∀ tv, lookupFields fields "test" = some tv →
      canonical_payload (Json.obj fields) =
        Except.ok (Json.dumps (Json.obj
          [("action_name", an), ("parameters", ps), ("timestamp", ts), ("test", tv)]))) ∧
    (∀ hmac_key sig payload, canonical_payload (Json.obj fields) = Except.ok payload →
      validate_signature hmac_key (Json.obj fields) (Json.str sig) =
        Except.ok (compare_digest sig (hmacSha256Hex hmac_key payload))) ∧
    canonical_payload exampleRequest = Except.ok examplePayloadString := by
  refine ⟨?_, ?_, ?_, rfl⟩
  · intro h0
    unfold canonical_payload
    simp [pyIndex, Json.lookup, ha, hp, ht, h0]
    rfl
  · intro tv h1
    unfold canonical_payload
    simp [pyIndex, Json.lookup, ha, hp, ht, h1]
    rfl
  · intro k sig payload hcp
    unfold validate_signature
    simp [hcp]

/-- C2 witness: the section 8 example evaluates to exactly the displayed
canonical payload. -/
theorem C2_canonical_payload_shape_witness :
    canonical_payload exampleRequest = Except.ok examplePayloadString :=
  (C2_canonical_payload_shape
    [("action_name", Json.str "send_email"), ("parameters", exampleParameters),
     ("timestamp", Json.num 1700000000), ("signature", Json.str exampleSignature)]
    (Json.str "send_email") exampleParameters (Json.num 1700000000) rfl rfl rfl).2.2.2

/-- C3: a request whose body has a truthy `test` field returns HTTP 200
with the canned success body, whatever the other fields hold — the
signature and timestamp are never consulted (they may be absent). -/
theorem C3_test_short_circuit (hmac_key action_name : String)
    (fields : List (String × Json)) (now : Int) (tv : Json)
    (htest : lookupFields fields "test" = some tv) (htruthy : tv.isTruthy = true) :
    handle_action hmac_key action_name (some (Json.obj fields)) now =
      ⟨200, Json.obj [("result", Json.str ("Test successful for action: " ++ action_name)),
                      ("error", Json.str "")]⟩ := by
  have hne : fields ≠ [] := by
    intro h
    subst h
    simp [lookupFields] at htest
  have hobj : (Json.obj fields).isTruthy = true := by
    cases fields with
    | nil => exact absurd rfl hne
    | cons a l => rfl
  unfold handle_action preDispatch
  simp [pyGetAttr, hobj, htest, htruthy]

/-- C3 witness: a body holding only `test: true` — no signature, no
timestamp — gets the 200 test response. -/
theorem C3_test_short_circuit_witness :
    handle_action "secret" "demo" (some (Json.obj [("test", Json.bool true)])) 0 =
      ⟨200, Json.obj [("result", Json.str "Test successful for action: demo"),
                      ("error", Json.str "")]⟩ :=
  C3_test_short_circuit "secret" "demo" [("test", Json.bool true)] 0 (Json.bool true) rfl rfl

/-- C4: the replay guard accepts exactly when `abs(now - timestamp) <= 300`;
a validly signed non-test request with `now - timestamp = 301` is rejected
with the 401 response, while `now - timestamp = 300` passes the replay
check and reaches dispatch (boundary inclusive). -/
theorem C4_replay_window_boundary (hmac_key action_name : String)
    (fields : List (String × Json)) (now ts : Int) (s : String)
    (htest : ((lookupFields fields "test").getD (Json.bool false)).isTruthy = false)
    (hsig : lookupFields fields "signature" = some (Json.str s))
    (hstruthy : (s != "") = true)
    (hvalid : validate_signature hmac_key (Json.obj fields) (Json.str s) = Except.ok true)
    (hts : lookupFields fields "timestamp" = some (Json.num ts)) :
    (∀ n t : Int, replay_rejects n t = false ↔ (n - t).natAbs ≤ 300) ∧
    (now - ts = 301 →
      handle_action hmac_key action_name (some (Json.obj fields)) now =
        ⟨401, Json.obj [("error", Json.str "Request timestamp too old")]⟩) ∧
    (now - ts = 300 →
      preDispatch hmac_key action_name (some (Json.obj fields)) now =
        Sum.inr (action_name, (lookupFields fields "parameters").getD (Json.obj []))) := by
  refine ⟨?_, ?_, ?_⟩
  · intro n t
    unfold replay_rejects
    simp [Nat.not_lt]
  · intro h301
    exact handle_action_replay_rejected hmac_key action_name fields now s ts htest hsig hstruthy
      hvalid hts (by unfold replay_rejects; rw [h301]; rfl)
  · intro h300
    exact (handle_action_reaches_dispatch hmac_key action_name fields now s ts htest hsig hstruthy
      hvalid hts (by unfold replay_rejects; rw [h300]; rfl)).1

/-- C4 witness: the example request is rejected at skew 301 and reaches
dispatch at skew 300. -/
theorem C4_replay_window_boundary_witness :
    handle_action "secret" "send_email" (some exampleRequest) 1700000301 =
      ⟨401, Json.obj [("error", Json.str "Request timestamp too old")]⟩ ∧
    preDispatch "secret" "send_email" (some exampleRequest) 1700000300 =
      Sum.inr ("send_email", exampleParameters) :=
  ⟨(C4_replay_window_boundary "secret" "send_email"
      [("action_name", Json.str "send_email"), ("parameters", exampleParameters),
       ("timestamp", Json.num 1700000000), ("signature", Json.str exampleSignature)]
      1700000301 1700000000 exampleSignature rfl rfl rfl exampleValidates.2 rfl).2.1 (by decide),
   (C4_replay_window_boundary "secret" "send_email"
      [("action_name", Json.str "send_email"), ("parameters", exampleParameters),
       ("timestamp", Json.num 1700000000), ("signature", Json.str exampleSignature)]
      1700000300 1700000000 exampleSignature rfl rfl rfl exampleValidates.2 rfl).2.2 (by decide)⟩

/-- C5 (corrected): every response carries an `error` field, but only the
non-400/401 responses (the test-mode 200 and the 500 internal-error paths)
also carry a `result` field; the 400 invalid-JSON and the three 401
rejection responses have no `result` key. -/
theorem C5_uniform_response_amended (hmac_key action_name : String)
    (data? : Option Json) (now : Int) :
    (handle_action hmac_key action_name data? now).body.hasKey "error" = true ∧
    ((handle_action hmac_key action_name data? now).status = 400 ∨
     (handle_action hmac_key action_name data? now).status = 401 ∨
     (handle_action hmac_key action_name data? now).body.hasKey "result" = true) := by
  unfold handle_action
  cases hpd : preDispatch hmac_key action_name data? now with
  | inl r =>
    simpa using preDispatch_inl_shape hmac_key action_name data? now r hpd
  | inr np =>
    simp [internalServerError, Json.hasKey, Json.lookup, lookupFields]

/-- C5 counterexample: the 400 malformed-body response has an `error` field
but no `result` field, refuting the claim that every response carries
both. -/
theorem C5_uniform_response_counterexample :
    (handle_action "secret" "send_email" none 0).status = 400 ∧
    (handle_action "secret" "send_email" none 0).body.hasKey "error" = true ∧
    (handle_action "secret" "send_email" none 0).body.hasKey "result" = false :=
  ⟨rfl, rfl, rfl⟩

/-- C6 (corrected): a replay rejection and a signature rejection share the
401 status but answer with different bodies (`Request timestamp too old`
versus `Invalid signature`), so a caller can distinguish them. -/
theorem C6_rejection_distinguishable_amended (hmac_key name1 name2 : String)
    (f g : List (String × Json)) (now m ts : Int) (s t : String)
    (hf_test : ((lookupFields f "test").getD (Json.bool false)).isTruthy = false)
    (hf_sig : lookupFields f "signature" = some (Json.str s))
    (hf_struthy : (s != "") = true)
    (hf_valid : validate_signature hmac_key (Json.obj f) (Json.str s) = Except.ok true)
    (hf_ts : lookupFields f "timestamp" = some (Json.num ts))
    (hf_replay : replay_rejects now ts = true)
    (hg_test : ((lookupFields g "test").getD (Json.bool false)).isTruthy = false)
    (hg_sig : lookupFields g "signature" = some (Json.str t))
    (hg_struthy : (t != "") = true)
    (hg_invalid : validate_signature hmac_key (Json.obj g) (Json.str t) = Except.ok false) :
    handle_action hmac_key name1 (some (Json.obj f)) now =
      ⟨401, Json.obj [("error", Json.str "Request timestamp too old")]⟩ ∧
    handle_action hmac_key name2 (some (Json.obj g)) m =
      ⟨401, Json.obj [("error", Json.str "Invalid signature")]⟩ ∧
    Json.obj [("error", Json.str "Request timestamp too old")] ≠
      Json.obj [("error", Json.str "Invalid signature")] := by
  refine ⟨handle_action_replay_rejected hmac_key name1 f now s ts hf_test hf_sig hf_struthy
    hf_valid hf_ts hf_replay,
    handle_action_invalid_signature hmac_key name2 g m t hg_test hg_sig hg_struthy hg_invalid, ?_⟩
  intro h
  have h2 := congrArg (fun j => j.lookup "error") h
  simp [Json.lookup, lookupFields] at h2

/-- C6 witness: the example request replay-rejected at skew 303 and the
tampered-signature request produce the two distinct 401 bodies. -/
theorem C6_rejection_distinguishable_witness :
    handle_action "secret" "send_email" (some exampleRequest) 1700000303 =
      ⟨401, Json.obj [("error", Json.str "Request timestamp too old")]⟩ ∧
    handle_action "secret" "send_email" (some badSigRequest) 1700000000 =
      ⟨401, Json.obj [("error", Json.str "Invalid signature")]⟩ ∧
    Json.obj [("error", Json.str "Request timestamp too old")] ≠
      Json.obj [("error", Json.str "Invalid signature")] :=
  C6_rejection_distinguishable_amended "secret" "send_email" "send_email"
    [("action_name", Json.str "send_email"), ("parameters", exampleParameters),
     ("timestamp", Json.num 1700000000), ("signature", Json.str exampleSignature)]
    [("action_name", Json.str "send_email"), ("parameters", exampleParameters),
     ("timestamp", Json.num 1700000000), ("signature", Json.str "00")]
    1700000303 1700000000 1700000000 exampleSignature "00"
    rfl rfl rfl exampleValidates.2 rfl rfl rfl rfl rfl badSigInvalid

/-- C6 counterexample: two concrete rejected requests — one outside the
replay window with a valid signature, one with a tampered signature — get
the same 401 status but different caller-visible bodies, refuting that the
two rejections are externally identical. -/
theorem C6_identical_rejection_counterexample :
    handle_action "secret" "send_email" (some exampleRequest) 1700000302 =
      ⟨401, Json.obj [("error", Json.str "Request timestamp too old")]⟩ ∧
    handle_action "secret" "send_email" (some badSigRequest) 1700000302 =
      ⟨401, Json.obj [("error", Json.str "Invalid signature")]⟩ ∧
    (handle_action "secret" "send_email" (some exampleRequest) 1700000302).status =
      (handle_action "secret" "send_email" (some badSigRequest) 1700000302).status ∧
    (handle_action "secret" "send_email" (some exampleRequest) 1700000302).body ≠
      (handle_action "secret" "send_email" (some badSigRequest) 1700000302).body := by
  have h1 : handle_action "secret" "send_email" (some exampleRequest) 1700000302 =
      ⟨401, Json.obj [("error", Json.str "Request timestamp too old")]⟩ :=
    handle_action_replay_rejected "secret" "send_email"
      [("action_name", Json.str "send_email"), ("parameters", exampleParameters),
       ("timestamp", Json.num 1700000000), ("signature", Json.str exampleSignature)]
      1700000302 exampleSignature 1700000000 rfl rfl rfl exampleValidates.2 rfl rfl
  have h2 : handle_action "secret" "send_email" (some badSigRequest) 1700000302 =
      ⟨401, Json.obj [("error", Json.str "Invalid signature")]⟩ :=
    handle_action_invalid_signature "secret" "send_email"
      [("action_name", Json.str "send_email"), ("parameters", exampleParameters),
       ("timestamp", Json.num 1700000000), ("signature", Json.str "00")]
      1700000302 "00" rfl rfl rfl badSigInvalid
  refine ⟨h1, h2, by rw [h1, h2], ?_⟩
  rw [h1, h2]
  intro h
  have h3 := congrArg (fun j => j.lookup "error") h
  simp [Json.lookup, lookupFields] at h3

/-- C7 (corrected): a non-test request with a signature but a missing
required field is NOT answered with a 400 MissingField response; the
`KeyError` from `validate_signature` is swallowed by the route's catch-all
and surfaces as a 500 internal-server-error naming the missing key. -/
theorem C7_missing_field_500_amended (hmac_key action_name : String)
    (fields : List (String × Json)) (now : Int) (s : String)
    (htest : ((lookupFields fields "test").getD (Json.bool false)).isTruthy = false)
    (hsig : lookupFields fields "signature" = some (Json.str s))
    (hstruthy : (s != "") = true) :
    (lookupFields fields "action_name" = none →
      handle_action hmac_key action_name (some (Json.obj fields)) now =
        ⟨500, Json.obj [("result", Json.str ""),
          ("error", Json.str ("Internal server error: " ++ pyQuote "action_name"))]⟩) ∧
    (∀ an, lookupFields fields "action_name" = some an →
      lookupFields fields "parameters" = none →
      handle_action hmac_key action_name (some (Json.obj fields)) now =
        ⟨500, Json.obj [("result", Json.str ""),
          ("error", Json.str ("Internal server error: " ++ pyQuote "parameters"))]⟩) ∧
    (∀ an ps, lookupFields fields "action_name" = some an →
      lookupFields fields "parameters" = some ps →
      lookupFields fields "timestamp" = none →
      handle_action hmac_key action_name (some (Json.obj fields)) now =
        ⟨500, Json.obj [("result", Json.str ""),
          ("error", Json.str ("Internal server error: " ++ pyQuote "timestamp"))]⟩) := by
  refine ⟨?_, ?_, ?_⟩
  · intro han
    exact handle_action_validate_error hmac_key action_name fields now s (pyQuote "action_name")
      htest hsig hstruthy
      (by unfold validate_signature canonical_payload; simp [pyIndex, Json.lookup, han]; rfl)
  · intro an han hpm
    exact handle_action_validate_error hmac_key action_name fields now s (pyQuote "parameters")
      htest hsig hstruthy
      (by unfold validate_signature canonical_payload; simp [pyIndex, Json.lookup, han, hpm]; rfl)
  · intro an ps han hpm hts
    exact handle_action_validate_error hmac_key action_name fields now s (pyQuote "timestamp")
      htest hsig hstruthy
      (by unfold validate_signature canonical_payload; simp [pyIndex, Json.lookup, han, hpm, hts]; rfl)

/-- C7 witness: a request missing `action_name` (signature present) gets
the 500 KeyError response. -/
theorem C7_missing_field_500_witness :
    handle_action "secret" "other_action"
      (some (Json.obj [("signature", Json.str "beef"), ("timestamp", Json.num 3)])) 3 =
      ⟨500, Json.obj [("result", Json.str ""),
        ("error", Json.str ("Internal server error: " ++ pyQuote "action_name"))]⟩ :=
  (C7_missing_field_500_amended "secret" "other_action"
    [("signature", Json.str "beef"), ("timestamp", Json.num 3)] 3 "beef" rfl rfl rfl).1 rfl

/-- C7 counterexample: the concrete missing-`action_name` request is
answered with status 500, not the 400-equivalent MalformedRequest response
the claim states. -/
theorem C7_missing_field_400_counterexample :
    (handle_action "secret" "send_email" (some missingFieldRequest) 1700000000).status = 500 ∧
    (handle_action "secret" "send_email" (some missingFieldRequest) 1700000000).status ≠ 400 ∧
    (handle_action "secret" "send_email" (some missingFieldRequest) 1700000000).body =
      Json.obj [("result", Json.str ""),
        ("error", Json.str ("Internal server error: " ++ pyQuote "action_name"))] :=
  ⟨rfl, by decide, rfl⟩

/-- C8 (corrected): dispatch of an unregistered action name returns, without
raising, the tuple with empty result, status flag 0, and the error string
`"Unknown action: <name>"` — with a capital `U`, not the claimed lowercase
`"unknown action: <name>"`. -/
theorem C8_unknown_action_amended (action_name : String) (parameters : Json) (now : Int)
    (h1 : action_name ≠ "send_email") (h2 : action_name ≠ "create_user")
    (h3 : action_name ≠ "get_weather") :
    execute_action action_name parameters now = ("", 0, "Unknown action: " ++ action_name) := by
  unfold execute_action dispatchTry dispatchBoundary
  simp [h1, h2, h3, pure, Except.pure]

/-- C8 witness: a concrete unregistered name. -/
theorem C8_unknown_action_witness :
    execute_action "noop" (Json.obj []) 7 = ("", 0, "Unknown action: noop") :=
  C8_unknown_action_amended "noop" (Json.obj []) 7 (by decide) (by decide) (by decide)

/-- C8 counterexample: the error string uses a capital `U`, so it is not
exactly `"unknown action: <name>"` as the claim states. -/
theorem C8_unknown_action_counterexample :
    execute_action "frobnicate" (Json.obj []) 0 = ("", 0, "Unknown action: frobnicate") ∧
    "Unknown action: frobnicate" ≠ "unknown action: frobnicate" :=
  ⟨rfl, by decide⟩

/-- C9: every exception raised inside a handler is caught at the dispatch
boundary and converted into the tuple with empty result, status flag 0, and
the non-empty error `"Action execution failed: <description>"`; no fault
escapes `execute_action`, which is total through `dispatchBoundary`. -/
theorem C9_handler_fault_contained :
    (∀ e, dispatchBoundary (Except.error e) = ("", 0, "Action execution failed: " ++ e)) ∧
    (∀ e, ("Action execution failed: " ++ e) ≠ "") ∧
    (∀ action_name parameters now,
      execute_action action_name parameters now =
        dispatchBoundary (dispatchTry action_name parameters now)) := by
  refine ⟨fun e => rfl, fun e h => ?_, fun a p n => rfl⟩
  have h2 := congrArg String.data h
  simp [String.data_append] at h2

/-- C10: the handler is selected solely by the URL path's action name while
the signature covers the body's `action_name` field, and the two are never
compared: a validly signed body whose `action_name` field is `bodyName`,
posted to the path of a different `pathName`, passes signature validation
and reaches dispatch with `pathName`. -/
theorem C10_path_selects_handler (hmac_key pathName bodyName : String)
    (fields : List (String × Json)) (now ts : Int) (s : String)
    (htest : ((lookupFields fields "test").getD (Json.bool false)).isTruthy = false)
    (hsig : lookupFields fields "signature" = some (Json.str s))
    (hstruthy : (s != "") = true)
    (hA : lookupFields fields "action_name" = some (Json.str bodyName))
    (hvalid : validate_signature hmac_key (Json.obj fields) (Json.str s) = Except.ok true)
    (hts : lookupFields fields "timestamp" = some (Json.num ts))
    (hreplay : replay_rejects now ts = false)
    (hne : pathName ≠ bodyName) :
    preDispatch hmac_key pathName (some (Json.obj fields)) now =
      Sum.inr (pathName, (lookupFields fields "parameters").getD (Json.obj [])) :=
  (handle_action_reaches_dispatch hmac_key pathName fields now s ts htest hsig hstruthy
    hvalid hts hreplay).1

/-- C10 witness: the example body (its `action_name` field is `send_email`,
its signature valid for that body) posted to `/actions/get_weather` reaches
dispatch with `get_weather`. -/
theorem C10_path_selects_handler_witness :
    preDispatch "secret" "get_weather" (some exampleRequest) 1700000000 =
      Sum.inr ("get_weather", exampleParameters) :=
  C10_path_selects_handler "secret" "get_weather" "send_email"
    [("action_name", Json.str "send_email"), ("parameters", exampleParameters),
     ("timestamp", Json.num 1700000000), ("signature", Json.str exampleSignature)]
    1700000000 1700000000 exampleSignature rfl rfl rfl rfl exampleValidates.2 rfl rfl (by decide)

end Flowent
